import Mathlib

/-!
# Verification of the weather-outfit recommendation orchestrator

A shallow embedding of the request pipeline of the `weather_outfit_ai`
package: the Pydantic data model (`models/schemas.py`, `models/state.py`),
the five agents (`agents/*.py`), the wardrobe category filter
(`services/wardrobe_service.py`) and the orchestrator
(`orchestrator/outfit_orchestrator.py`).

External effects (LLM calls, the weather HTTP client, the ChromaDB
semantic index) are modelled as oracles: each call site's outcome is a
parameter of type `Except String _` (a raised exception carries its
message) or, for the semantic index, a function from query and limit to a
result list.  Python values that can dynamically be a string or a
`PersonalClothingItem` are modelled by the sum type `SlotVal`; Python
`dict` fields that a later read distinguishes between "key absent" and
"key present with value None" are modelled as `Option (Option _)`.
All other control flow, string processing and state mutation is
translated statement by statement from the source.
-/

/-- Python `needle in haystack` on strings (substring containment). -/
def pyIn (needle haystack : String) : Bool :=
  decide (needle.data <:+: haystack.data)

/-- Python `s.lower()` (ASCII case folding, character by character). -/
def pyLower (s : String) : String :=
  ⟨s.data.map Char.toLower⟩

/-- Python `s.strip()`: drop whitespace from both ends. -/
def pyStrip (s : String) : String :=
  ⟨((s.data.dropWhile Char.isWhitespace).reverse.dropWhile
      Char.isWhitespace).reverse⟩

/-- Helper for `pySplit`: accumulate the current field (reversed) while
scanning. -/
def pySplitAux (sep : Char) : List Char → List Char → List String
  | [], acc => [⟨acc.reverse⟩]
  | c :: cs, acc =>
    if c = sep then ⟨acc.reverse⟩ :: pySplitAux sep cs []
    else pySplitAux sep cs (c :: acc)

/-- Python `s.split(sep)` for a one-character separator: `"" ↦ [""]`,
adjacent separators produce empty fields. -/
def pySplit (s : String) (sep : Char) : List String :=
  pySplitAux sep s.data []

/-- Python truthiness of an `Optional[str]`: `None` and `""` are falsy. -/
def pyTruthyStr : Option String → Bool
  | none => false
  | some s => s ≠ ""

/-- Python `d.get(key, default)` for a dict slot modelled as
`Option (Option String)` (outer layer: key presence; inner: the stored
value, which may itself be Python `None`). -/
def pyGet (field : Option (Option String)) (dflt : String) : Option String :=
  field.getD (some dflt)

/-- Python `dict` insertion semantics for a string-keyed association list:
an existing key keeps its position and gets the new value, a new key is
appended. -/
def dictInsert {α : Type} (d : List (String × α)) (k : String) (v : α) :
    List (String × α) :=
  if d.any (fun p => p.1 = k) then
    d.map (fun p => if p.1 = k then (k, v) else p)
  else d ++ [(k, v)]

/-- Embedding of `models/schemas.py` `PersonalClothingItem` (the `last_worn` timestamp
is an opaque tick). -/
structure PersonalClothingItem where
  id : Option String := none
  name : String
  category : String
  subcategory : String := ""
  material : String := ""
  color : String := ""
  secondary_colors : List String := []
  warmth_level : Int := 1
  formality : Int := 1
  weather_suitability : List String := []
  season : List String := []
  brand : Option String := none
  size : Option String := none
  description : String := ""
  tags : List String := []
  last_worn : Option Nat := none
  deriving Repr, DecidableEq

/-- Embedding of `models/schemas.py` `WeatherData` (temperatures and wind as integers:
no claim computes with them; `timestamp` is an opaque tick). -/
structure WeatherData where
  location : String
  temperature : Int
  feels_like : Int
  humidity : Int
  wind_speed : Int
  description : String
  conditions : List String
  timestamp : Nat := 0
  deriving Repr, DecidableEq

/-- Embedding of `models/schemas.py` `WardrobeSelection`. -/
structure WardrobeSelection where
  available_tops : List PersonalClothingItem := []
  available_bottoms : List PersonalClothingItem := []
  available_footwear : List PersonalClothingItem := []
  available_outerwear : List PersonalClothingItem := []
  available_accessories : List PersonalClothingItem := []
  selection_reasoning : String
  deriving Repr, DecidableEq

/-- A dynamically-typed outfit slot as `design_agent.py` sees it: the
structured LLM output may hold an item object or a bare string name
(the code dispatches on `isinstance(..., str)`). -/
inductive SlotVal where
  | item (i : PersonalClothingItem)
  | str (s : String)
  deriving Repr, DecidableEq

/-- Embedding of `models/schemas.py` `OutfitRecommendation`, with the slots kept at
their dynamic type `SlotVal`. -/
structure OutfitRecommendation where
  selected_top : Option SlotVal := none
  selected_bottom : Option SlotVal := none
  selected_footwear : Option SlotVal := none
  selected_outerwear : Option SlotVal := none
  selected_accessories : List SlotVal := []
  outfit_description : String
  styling_advice : String
  weather_appropriateness : String
  formality_match : String
  deriving Repr, DecidableEq

/-- The dict returned by `SupervisorAgent.plan` (`supervisor_agent.py`).
The four routing keys are always present (the JSON fallback path defaults
missing ones to `None`), so they are modelled as value-or-None; the
`reasoning` and `confidence` keys may be absent in the JSON path but are
never read individually, so presence and value are collapsed. -/
structure PlanDict where
  action : Option String
  location : Option String
  followup_context : Option String
  original_message : Option String
  reasoning : Option String := none
  confidence : Option Rat := none
  deriving Repr, DecidableEq

/-- The analysis dict produced by `WeatherAgent._analyze_weather`
(`weather_agent.py`): the keys of a `WeatherAnalysis.model_dump()` or of
the parsed JSON fallback. -/
structure WeatherAnalysisDict where
  weather_analysis : String
  comfort_level : Int
  key_factors : List String
  temperature_category : String
  precipitation_risk : String
  wind_factor : String
  recommendations : String
  deriving Repr, DecidableEq

/-- The `metadata` dict of `AgentState`, structured by the keys the code
writes.  `action` and `user_message` are read back with `.get(k, default)`
and may be present-with-None, hence `Option (Option String)`; the weather
analysis keys are merged in one block and never read individually. -/
structure Metadata where
  user_message : Option (Option String) := none
  action : Option (Option String) := none
  supervisor_reasoning : Option PlanDict := none
  analysis : Option WeatherAnalysisDict := none
  wardrobe_agent_reasoning : Option String := none
  deriving Repr, DecidableEq

/-- Embedding of `models/state.py` `AgentState`. -/
structure AgentState where
  location : Option String := none
  followup_context : Option String := none
  weather_data : Option WeatherData := none
  wardrobe_selection : Option WardrobeSelection := none
  final_recommendation : Option OutfitRecommendation := none
  response : Option String := none
  conversation_history : List String := []
  errors : List String := []
  metadata : Metadata := {}
  deriving Repr, DecidableEq

/-! ## Outfit Composer (`agents/design_agent.py`) -/

/-- Embedding of `DesignAgent._create_item_lookup`: a dict from lower-cased item name
to item, filled from the five candidate lists in order. -/
def create_item_lookup (wardrobe : WardrobeSelection) :
    List (String × PersonalClothingItem) :=
  (wardrobe.available_tops ++ wardrobe.available_bottoms ++
   wardrobe.available_footwear ++ wardrobe.available_outerwear ++
   wardrobe.available_accessories).foldl
    (fun d item => dictInsert d (pyLower item.name) item) []

/-- Embedding of `DesignAgent._find_item_by_name`: sentinel guard, then exact
lower-cased dict lookup, then first substring-containment match in dict
order, else `none`. -/
def find_item_by_name (name_text : String)
    (all_items : List (String × PersonalClothingItem)) :
    Option PersonalClothingItem :=
  if name_text = "" ∨ pyLower name_text ∈ ["none", "not needed", ""] then
    none
  else
    match (all_items.find? (fun p => p.1 = pyLower name_text)).map (·.2) with
    | some i => some i
    | none =>
      (all_items.find? (fun p =>
        pyIn (pyLower name_text) p.1 || pyIn p.1 (pyLower name_text))).map (·.2)

/-- Python truthiness of an optional outfit slot: `None` is falsy, an
empty string is falsy, an item object and a non-empty string are truthy. -/
def slotTruthy : Option SlotVal → Bool
  | none => false
  | some (.str s) => s ≠ ""
  | some (.item _) => true

/-- One slot of `DesignAgent._validate_and_populate_outfit`: a truthy
string slot is resolved through `_find_item_by_name`; anything else —
including an already-structured item — is left untouched. -/
def resolveSlot (all_items : List (String × PersonalClothingItem))
    (slot : Option SlotVal) : Option SlotVal :=
  if slotTruthy slot then
    match slot with
    | some (.str s) => (find_item_by_name s all_items).map SlotVal.item
    | x => x
  else slot

/-- Embedding of `DesignAgent._validate_and_populate_outfit`. -/
def validate_and_populate_outfit (outfit : OutfitRecommendation)
    (wardrobe : WardrobeSelection) : OutfitRecommendation :=
  let all_items := create_item_lookup wardrobe
  { outfit with
    selected_top := resolveSlot all_items outfit.selected_top
    selected_bottom := resolveSlot all_items outfit.selected_bottom
    selected_footwear := resolveSlot all_items outfit.selected_footwear
    selected_outerwear := resolveSlot all_items outfit.selected_outerwear
    selected_accessories := outfit.selected_accessories.filterMap
      (fun acc =>
        match acc with
        | .str s => (find_item_by_name s all_items).map SlotVal.item
        | .item i => some (.item i)) }

/-- Embedding of `DesignAgent._parse_outfit_response`: split the fallback response on
`"|"`; with any field count other than 5 all five parts become `"None"`;
each part resolves through `_find_item_by_name`, the fifth part is a
comma-separated accessory list. -/
def parse_outfit_response (response : String)
    (wardrobe : WardrobeSelection) : OutfitRecommendation :=
  let all_items := create_item_lookup wardrobe
  let parts0 := pySplit (pyStrip response) '|'
  let parts := if parts0.length ≠ 5 then
    ["None", "None", "None", "None", "None"] else parts0
  let p4 := parts.getD 4 ""
  { selected_top :=
      (find_item_by_name (parts.getD 0 "") all_items).map SlotVal.item
    selected_bottom :=
      (find_item_by_name (parts.getD 1 "") all_items).map SlotVal.item
    selected_footwear :=
      (find_item_by_name (parts.getD 2 "") all_items).map SlotVal.item
    selected_outerwear :=
      (find_item_by_name (parts.getD 3 "") all_items).map SlotVal.item
    selected_accessories :=
      if p4 ≠ "" ∧ pyLower p4 ≠ "none" then
        (pySplit p4 ',').filterMap
          (fun accName =>
            (find_item_by_name (pyStrip accName) all_items).map SlotVal.item)
      else []
    outfit_description := "Complete outfit selected from your wardrobe."
    styling_advice := "Wear with confidence!"
    weather_appropriateness := "Suitable for current weather conditions."
    formality_match := "Appropriate for the occasion." }

/-! ## Oracles for external calls

Each field is the outcome of one call site in one request: `.error msg`
models a raised exception with message `msg`. -/

/-- Outcomes of all external calls made while processing one request. -/
structure Oracles where
  /-- `SupervisorAgent.plan`, structured call: `plan.model_dump()`. -/
  supStructured : Except String PlanDict
  /-- `SupervisorAgent.plan`, fallback `llm.ainvoke` + `json.loads`:
  `.ok (some d)` a parsed JSON object (missing routing keys already
  defaulted to `None`), `.ok none` non-string content or a
  `JSONDecodeError`, `.error` the call raised. -/
  supUnstructured : Except String (Option PlanDict)
  /-- `WeatherService.get_weather`. -/
  weatherFetch : Except String WeatherData
  /-- `WeatherAgent._analyze_weather`, structured call. -/
  weatherStructured : Except String WeatherAnalysisDict
  /-- `WeatherAgent._analyze_weather`, fallback `llm.ainvoke` +
  `json.loads`: `.ok (some d)` parsed, `.ok none` empty / non-string /
  unparseable content, `.error` the call raised. -/
  weatherUnstructured : Except String (Option WeatherAnalysisDict)
  /-- `WardrobeAgent.agent_executor.ainvoke`: the agent's output text. -/
  wardrobeExec : Except String String
  /-- `WardrobeService.semantic_search` (its own `except` already returns
  `[]`, so the oracle is total): query and limit to ranked items. -/
  search : String → Nat → List PersonalClothingItem
  /-- `DesignAgent.run`, structured call. -/
  designStructured : Except String OutfitRecommendation
  /-- `DesignAgent.run`, fallback `llm.ainvoke`: the response content. -/
  designUnstructured : Except String String
  /-- `ConversationAgent.respond`, structured call: `response_obj.response`. -/
  convStructured : Except String String
  /-- `ConversationAgent.respond`, fallback `llm.ainvoke`:
  `.ok (some s)` string content `s`, `.ok none` non-string content,
  `.error` the call raised. -/
  convUnstructured : Except String (Option String)

/-- A stage outcome: `.error (msg, s)` models an exception with message
`msg` escaping the stage while the shared state object — mutated in place
by Python — has already reached `s`. -/
abbrev StageResult := Except (String × AgentState) AgentState

/-! ## Wardrobe Selector (`agents/wardrobe_agent.py`,
`services/wardrobe_service.py`) -/

/-- Embedding of `WardrobeService.filter_by_category`: semantic search with twice the
limit, keep items whose category equals the requested one lower-cased,
truncate to the limit. -/
def filter_by_category (search : String → Nat → List PersonalClothingItem)
    (category : String) (limit : Nat) : List PersonalClothingItem :=
  ((search (category ++ " clothing items") (limit * 2)).filter
    (fun item => pyLower item.category = pyLower category)).take limit

/-- Embedding of `WardrobeAgent._parse_agent_results`: rebuild the five candidate
lists with fixed per-category limits, keeping the agent output as the
reasoning string. -/
def parse_agent_results (search : String → Nat → List PersonalClothingItem)
    (agent_output : String) : WardrobeSelection :=
  { available_tops := filter_by_category search "tops" 4
    available_bottoms := filter_by_category search "bottoms" 4
    available_footwear := filter_by_category search "footwear" 3
    available_outerwear := filter_by_category search "outerwear" 2
    available_accessories := filter_by_category search "accessories" 3
    selection_reasoning := agent_output }

/-- Embedding of `WardrobeAgent.run`: skip when no weather data, otherwise run the
query agent (an escaping exception aborts the stage) and store the
selection and the reasoning. -/
def wardrobeRun (o : Oracles) (s : AgentState) : StageResult :=
  if s.weather_data = none then .ok s
  else
    match o.wardrobeExec with
    | .error e => .error (e, s)
    | .ok out =>
      .ok { s with
        wardrobe_selection := some (parse_agent_results o.search out)
        metadata := { s.metadata with wardrobe_agent_reasoning := some out } }

/-! ## Weather Interpreter (`agents/weather_agent.py`) -/

/-- The deterministic minimal analysis of
`WeatherAgent._analyze_weather`'s final fallback branch. -/
def minimalAnalysis (weather_data : WeatherData) : WeatherAnalysisDict :=
  { weather_analysis := "Weather in " ++ weather_data.location ++ ": " ++
      weather_data.description ++ ", " ++ toString weather_data.temperature
      ++ "°C"
    comfort_level := 3
    key_factors := ["temperature", "conditions"]
    temperature_category := "mild"
    precipitation_risk := "low"
    wind_factor := "calm"
    recommendations := "Dress appropriately for the current conditions." }

/-- Embedding of `WeatherAgent._analyze_weather`: the structured result, else the
parsed JSON of the fallback call, else the minimal analysis; an exception
raised by the fallback call itself escapes. -/
def analyze_weather (o : Oracles) (weather_data : WeatherData) :
    Except String WeatherAnalysisDict :=
  match o.weatherStructured with
  | .ok a => .ok a
  | .error _ =>
    match o.weatherUnstructured with
    | .error e => .error e
    | .ok (some d) => .ok d
    | .ok none => .ok (minimalAnalysis weather_data)

/-- Embedding of `WeatherAgent.run`: skip on a falsy location; otherwise fetch weather
(an escaping exception aborts the stage), store it, and merge the
analysis into the metadata. -/
def weatherRun (o : Oracles) (s : AgentState) : StageResult :=
  if ¬ pyTruthyStr s.location then .ok s
  else
    match o.weatherFetch with
    | .error e => .error (e, s)
    | .ok wd =>
      let s1 := { s with weather_data := some wd }
      match analyze_weather o wd with
      | .error e => .error (e, s1)
      | .ok a =>
        .ok { s1 with metadata := { s1.metadata with analysis := some a } }

/-! ## Outfit Composer stage (`agents/design_agent.py`) -/

/-- Embedding of `DesignAgent.run`: skip when weather or wardrobe data is missing;
otherwise validate the structured result, or on its failure parse the
stripped fallback response (an exception from the fallback call escapes). -/
def designRun (o : Oracles) (s : AgentState) : StageResult :=
  if s.weather_data = none then .ok s
  else if s.wardrobe_selection = none then .ok s
  else
    match s.wardrobe_selection with
    | none => .ok s
    | some wardrobe =>
      match o.designStructured with
      | .ok outfit =>
        let rec1 := validate_and_populate_outfit outfit wardrobe
        .ok { s with final_recommendation := some rec1 }
      | .error _ =>
        match o.designUnstructured with
        | .error e => .error (e, s)
        | .ok content =>
          let rec2 := parse_outfit_response (pyStrip content) wardrobe
          .ok { s with final_recommendation := some rec2 }

/-! ## Response Composer (`agents/conversation_agent.py`) -/

/-- Embedding of `ConversationAgent.respond`: the structured response text, else the
stripped fallback content, else a fixed apology when the fallback content
is not a string; an exception raised by the fallback call escapes. -/
def respondResult (o : Oracles) : Except String String :=
  match o.convStructured with
  | .ok t => .ok t
  | .error _ =>
    match o.convUnstructured with
    | .error e => .error e
    | .ok (some content) => .ok (pyStrip content)
    | .ok none =>
      .ok "I apologize, but I couldn't generate a proper response. Please try again."

/-- Embedding of `ConversationAgent.run`: build the results snapshot (read-only) and
store the reply; the only state field it writes is `response`. -/
def conversationRun (o : Oracles) (s : AgentState) : StageResult :=
  match respondResult o with
  | .error e => .error (e, s)
  | .ok text => .ok { s with response := some text }

/-! ## Intent Router (`agents/supervisor_agent.py`) -/

/-- The final fallback dict of `SupervisorAgent.plan`. -/
def fallbackPlan (message : Option String) : PlanDict :=
  { action := some "full_recommendation"
    location := none
    followup_context := none
    original_message := message
    reasoning := some "Fallback to full recommendation due to parsing error"
    confidence := some (1 / 2 : Rat) }

/-- Embedding of `SupervisorAgent.plan`: the structured plan, else the parsed JSON of
the fallback call (missing routing keys defaulted to `None`), else the
final fallback dict; an exception raised by the fallback call escapes. -/
def supervisor_plan (o : Oracles) (message : Option String) :
    Except String PlanDict :=
  match o.supStructured with
  | .ok plan => .ok plan
  | .error _ =>
    match o.supUnstructured with
    | .error e => .error e
    | .ok (some d) => .ok d
    | .ok none => .ok (fallbackPlan message)

/-! ## Orchestrator (`orchestrator/outfit_orchestrator.py`) -/

/-- The state patch applied by `OutfitOrchestrator._run_supervisor` for
a plan dict (always truthy): updates location, follow-up context, and
the metadata keys `action`, `user_message`, `supervisor_reasoning`. -/
def supPatched (s : AgentState) (d : PlanDict) : AgentState :=
  { s with
    location := d.location
    followup_context := d.followup_context
    metadata := { s.metadata with
      action := some d.action
      user_message := some d.original_message
      supervisor_reasoning := some d } }

/-- Embedding of `OutfitOrchestrator._run_supervisor`: read the user message, plan,
then apply the supervisor's patch; a raised exception aborts the stage. -/
def runSupervisorStage (o : Oracles) (s : AgentState) : StageResult :=
  let user_message := pyGet s.metadata.user_message ""
  match supervisor_plan o user_message with
  | .error e => .error (e, s)
  | .ok d => .ok (supPatched s d)

/-- Embedding of `OutfitOrchestrator._run_full_recommendation_flow`. -/
def fullFlow (o : Oracles) (s : AgentState) : StageResult :=
  match weatherRun o s with
  | .error e => .error e
  | .ok s1 =>
    match wardrobeRun o s1 with
    | .error e => .error e
    | .ok s2 =>
      match designRun o s2 with
      | .error e => .error e
      | .ok s3 => conversationRun o s3

/-- Embedding of `OutfitOrchestrator._run_weather_only_flow`. -/
def weatherOnlyFlow (o : Oracles) (s : AgentState) : StageResult :=
  match weatherRun o s with
  | .error e => .error e
  | .ok s1 => conversationRun o s1

/-- Embedding of `OutfitOrchestrator._run_wardrobe_only_flow`. -/
def wardrobeOnlyFlow (o : Oracles) (s : AgentState) : StageResult :=
  match wardrobeRun o s with
  | .error e => .error e
  | .ok s1 => conversationRun o s1

/-- Embedding of `OutfitOrchestrator._run_conversation_only_flow`. -/
def conversationOnlyFlow (o : Oracles) (s : AgentState) : StageResult :=
  conversationRun o s

/-- The state built at the top of `OutfitOrchestrator.process_request`. -/
def initState (user_message : String) (history : List String) : AgentState :=
  { conversation_history := history
    metadata := { user_message := some (some user_message) } }

/-- The body of the `try` block of `process_request`: supervisor stage,
then the flow selected by `metadata.get("action", "full_recommendation")`
(any unknown or `None` action defaults to the full flow). -/
def pipelineResult (o : Oracles) (s0 : AgentState) : StageResult :=
  match runSupervisorStage o s0 with
  | .error e => .error e
  | .ok s1 =>
    let action := pyGet s1.metadata.action "full_recommendation"
    if action = some "full_recommendation" then fullFlow o s1
    else if action = some "weather_only" then weatherOnlyFlow o s1
    else if action = some "wardrobe_only" then wardrobeOnlyFlow o s1
    else if action = some "conversation_only" then conversationOnlyFlow o s1
    else fullFlow o s1

/-- The fixed apology of `process_request`'s top-level handler. -/
def apologyString : String :=
  "I apologize, but I encountered an error processing your request. Please try again."

/-- Embedding of `OutfitOrchestrator.process_request`: run the pipeline; an exception
reaching the top-level handler appends its message to `errors` and
force-sets the apology reply on the state as mutated so far. -/
def process_request (o : Oracles) (user_message : String)
    (history : List String) : AgentState :=
  match pipelineResult o (initState user_message history) with
  | .ok s => s
  | .error (e, s) =>
    { s with
      errors := s.errors ++ ["Error processing request: " ++ e]
      response := some apologyString }

/-! ## Helper lemmas on the pipeline structure -/

/-- The conversation stage, when it completes, writes exactly the
composer's text into `response` and changes nothing else. -/
theorem conversationRun_ok (o : Oracles) (s s' : AgentState)
    (h : conversationRun o s = .ok s') :
    ∃ t, respondResult o = .ok t ∧ s' = { s with response := some t } := by
  unfold conversationRun at h
  split at h
  · cases h
  · rename_i t hr
    exact ⟨t, hr, (Except.ok.inj h).symm⟩

/-- A completed full-recommendation flow ends in a completed
conversation stage. -/
theorem fullFlow_ok (o : Oracles) (s s' : AgentState)
    (h : fullFlow o s = .ok s') :
    ∃ s₃, conversationRun o s₃ = .ok s' := by
  unfold fullFlow at h
  split at h
  · cases h
  · split at h
    · cases h
    · split at h
      · cases h
      · exact ⟨_, h⟩

/-- A completed weather-only flow ends in a completed conversation
stage. -/
theorem weatherOnlyFlow_ok (o : Oracles) (s s' : AgentState)
    (h : weatherOnlyFlow o s = .ok s') :
    ∃ s₁, conversationRun o s₁ = .ok s' := by
  unfold weatherOnlyFlow at h
  split at h
  · cases h
  · exact ⟨_, h⟩

/-- A completed wardrobe-only flow ends in a completed conversation
stage. -/
theorem wardrobeOnlyFlow_ok (o : Oracles) (s s' : AgentState)
    (h : wardrobeOnlyFlow o s = .ok s') :
    ∃ s₁, conversationRun o s₁ = .ok s' := by
  unfold wardrobeOnlyFlow at h
  split at h
  · cases h
  · exact ⟨_, h⟩

/-- Every completed pipeline run ends in a completed conversation stage,
so its final state carries the Response Composer's text. -/
theorem pipelineResult_ok (o : Oracles) (s0 s' : AgentState)
    (h : pipelineResult o s0 = .ok s') :
    ∃ (t : String) (s₃ : AgentState),
      respondResult o = .ok t ∧ s' = { s₃ with response := some t } := by
  unfold pipelineResult at h
  cases hs : runSupervisorStage o s0 <;> rw [hs] at h <;> dsimp only at h
  · cases h
  · split at h
    · obtain ⟨s₃, hc⟩ := fullFlow_ok o _ s' h
      obtain ⟨t, hr, he⟩ := conversationRun_ok o s₃ s' hc
      exact ⟨t, s₃, hr, he⟩
    · split at h
      · obtain ⟨s₃, hc⟩ := weatherOnlyFlow_ok o _ s' h
        obtain ⟨t, hr, he⟩ := conversationRun_ok o s₃ s' hc
        exact ⟨t, s₃, hr, he⟩
      · split at h
        · obtain ⟨s₃, hc⟩ := wardrobeOnlyFlow_ok o _ s' h
          obtain ⟨t, hr, he⟩ := conversationRun_ok o s₃ s' hc
          exact ⟨t, s₃, hr, he⟩
        · split at h
          · obtain ⟨t, hr, he⟩ := conversationRun_ok o _ s' h
            exact ⟨t, _, hr, he⟩
          · obtain ⟨s₃, hc⟩ := fullFlow_ok o _ s' h
            obtain ⟨t, hr, he⟩ := conversationRun_ok o s₃ s' hc
            exact ⟨t, s₃, hr, he⟩

/-- C3: `process_request` always returns a state whose reply is set: on
normal completion it is the Response Composer's text, and when an
exception reaches the top-level handler, the handler appends the message
to `errors` and force-sets the fixed apology string. -/
theorem C3_reply_always_set (o : Oracles) (msg : String)
    (hist : List String) :
    (process_request o msg hist).response.isSome
    ∧ (∀ e sp, pipelineResult o (initState msg hist) = .error (e, sp) →
        process_request o msg hist =
          ({ sp with
             errors := sp.errors ++ ["Error processing request: " ++ e]
             response := some apologyString } : AgentState))
    ∧ (∀ s', pipelineResult o (initState msg hist) = .ok s' →
        process_request o msg hist = s'
        ∧ ∃ t, respondResult o = .ok t ∧ s'.response = some t) := by
  refine ⟨?_, ?_, ?_⟩
  · unfold process_request
    cases hp : pipelineResult o (initState msg hist)
    · rename_i e; cases e; simp
    · rename_i s'
      obtain ⟨t, s₃, _, he⟩ := pipelineResult_ok o _ s' hp
      simp [he]
  · intro e sp hp
    unfold process_request
    rw [hp]
  · intro s' hp
    refine ⟨?_, ?_⟩
    · unfold process_request
      rw [hp]
    · obtain ⟨t, s₃, hr, he⟩ := pipelineResult_ok o _ s' hp
      exact ⟨t, hr, by rw [he]⟩

/-- Oracle set for the C3 witness: both routing calls raise, so the
pipeline throws at the supervisor stage. -/
def oC3 : Oracles :=
  { supStructured := .error "e"
    supUnstructured := .error "boom3"
    weatherFetch := .error "x"
    weatherStructured := .error "x"
    weatherUnstructured := .ok none
    wardrobeExec := .ok "out"
    search := fun _ _ => []
    designStructured := .error "x"
    designUnstructured := .ok "resp"
    convStructured := .ok "hello"
    convUnstructured := .ok none }

/-- Witness for C3 at a concrete input: with both routing calls raising,
the returned state carries the appended error and the apology reply. -/
theorem C3_reply_always_set_witness :
    process_request oC3 "hi" [] =
      ({ initState "hi" [] with
         errors := ["Error processing request: boom3"]
         response := some apologyString } : AgentState) :=
  (C3_reply_always_set oC3 "hi" []).2.1 "boom3" (initState "hi" []) (by rfl)

/-- The routing plan used in the C2 scenario: a successful structured
classification asking for the full-recommendation flow in Paris. -/
def planC2 : PlanDict :=
  { action := some "full_recommendation"
    location := some "Paris"
    followup_context := none
    original_message := some "msg"
    reasoning := some "r"
    confidence := none }

/-- Oracle set for C2: the routing call succeeds, the weather fetch
raises `"boom"`, and the Response Composer would answer `"CHAT"` if it
were reached. -/
def oC2 : Oracles :=
  { supStructured := .ok planC2
    supUnstructured := .ok none
    weatherFetch := .error "boom"
    weatherStructured := .error "x"
    weatherUnstructured := .ok none
    wardrobeExec := .ok "out"
    search := fun _ _ => []
    designStructured := .error "x"
    designUnstructured := .ok "resp"
    convStructured := .ok "CHAT"
    convUnstructured := .ok none }

/-- The state at the moment the weather fetch raises in the C2 scenario:
the supervisor's patch has been applied, nothing else. -/
def c2FailState : AgentState :=
  { initState "msg" [] with
    location := some "Paris"
    followup_context := none
    metadata :=
      { user_message := some (some "msg")
        action := some (some "full_recommendation")
        supervisor_reasoning := some planC2 } }

/-- C2 counterexample: in the full-recommendation flow, a weather-fetch
exception is NOT caught inside the weather stage. It aborts the wardrobe,
design and conversation stages (the composer, which would have produced
`"CHAT"`, never runs) and is only absorbed by the orchestrator's
top-level handler, which sets the apology — refuting the claim that a
stage failure is appended to `errors` by the stage itself and that the
remaining downstream stages still run. -/
theorem C2_counterexample :
    oC2.weatherFetch = .error "boom"
    ∧ respondResult oC2 = .ok "CHAT"
    ∧ (process_request oC2 "msg" []).response = some apologyString
    ∧ (process_request oC2 "msg" []).response ≠ some "CHAT"
    ∧ (process_request oC2 "msg" []).wardrobe_selection = none
    ∧ (process_request oC2 "msg" []).errors =
        ["Error processing request: boom"] := by
  exact ⟨rfl, rfl, rfl, by decide, rfl, rfl⟩

/-- C2 as amended: a failure inside a stage is not caught by the stage;
it propagates, skipping the remaining stages of the flow, and the
orchestrator's top-level handler appends its message to `errors` and sets
the apology reply on the state as mutated so far — the caller still
receives a state, but downstream stages do not run. -/
theorem C2_amended (o : Oracles) (msg : String) (hist : List String)
    (e : String) (sp : AgentState) :
    (∀ s, weatherRun o s = .error (e, sp) → fullFlow o s = .error (e, sp))
    ∧ (pipelineResult o (initState msg hist) = .error (e, sp) →
       process_request o msg hist =
         ({ sp with
            errors := sp.errors ++ ["Error processing request: " ++ e]
            response := some apologyString } : AgentState)) := by
  constructor
  · intro s hw
    unfold fullFlow
    rw [hw]
  · intro hp
    unfold process_request
    rw [hp]

/-- Witness for the amended C2 at the concrete C2 scenario. -/
theorem C2_amended_witness :
    fullFlow oC2 c2FailState = .error ("boom", c2FailState)
    ∧ process_request oC2 "msg" [] =
        ({ c2FailState with
           errors := ["Error processing request: boom"]
           response := some apologyString } : AgentState) :=
  ⟨(C2_amended oC2 "msg" [] "boom" c2FailState).1 c2FailState (by rfl),
   (C2_amended oC2 "msg" [] "boom" c2FailState).2 (by rfl)⟩

/-- Oracle set for C4: the structured routing call raises and the
fallback call returns unparseable output, so `SupervisorAgent.plan`
reaches its final fallback dict; everything downstream is benign. -/
def oC4 : Oracles :=
  { supStructured := .error "sup boom"
    supUnstructured := .ok none
    weatherFetch := .error "x"
    weatherStructured := .error "x"
    weatherUnstructured := .ok none
    wardrobeExec := .ok "out"
    search := fun _ _ => []
    designStructured := .error "x"
    designUnstructured := .ok "resp"
    convStructured := .ok "hey"
    convUnstructured := .ok none }

/-- The state after the supervisor stage in the C4 scenario. -/
def c4State : AgentState :=
  { initState "hello" [] with
    location := none
    followup_context := none
    metadata :=
      { user_message := some (some "hello")
        action := some (some "full_recommendation")
        supervisor_reasoning := some (fallbackPlan (some "hello")) } }

/-- C4 counterexample: when the classification call errors and its
fallback output is unparseable, the router does fall back to
`action=full_recommendation`, `location=null`,
`original_message=utterance`, `confidence=0.5` — but NO description of
the routing failure is ever appended to the state's `errors`, neither by
the supervisor stage nor later in the request, refuting that part of the
claim. -/
theorem C4_counterexample :
    oC4.supStructured = .error "sup boom"
    ∧ oC4.supUnstructured = .ok none
    ∧ runSupervisorStage oC4 (initState "hello" []) = .ok c4State
    ∧ c4State.metadata.supervisor_reasoning =
        some (fallbackPlan (some "hello"))
    ∧ (fallbackPlan (some "hello")).action = some "full_recommendation"
    ∧ (fallbackPlan (some "hello")).location = none
    ∧ (fallbackPlan (some "hello")).original_message = some "hello"
    ∧ (fallbackPlan (some "hello")).confidence = some (1 / 2 : Rat)
    ∧ c4State.errors = []
    ∧ (process_request oC4 "hello" []).errors = [] := by
  exact ⟨rfl, rfl, rfl, rfl, rfl, rfl, rfl, rfl, rfl, rfl⟩

/-- C4 as amended: on a classification error followed by unparseable
fallback output, the router produces exactly the fallback plan
(`action=full_recommendation`, `location=null`,
`original_message=utterance`, `confidence=0.5`), and the supervisor stage
leaves the state's `errors` unchanged — no routing-failure description is
recorded. -/
theorem C4_amended (o : Oracles) (s : AgentState) (e : String)
    (h1 : o.supStructured = .error e)
    (h2 : o.supUnstructured = .ok none) :
    supervisor_plan o (pyGet s.metadata.user_message "") =
      .ok (fallbackPlan (pyGet s.metadata.user_message ""))
    ∧ (fallbackPlan (pyGet s.metadata.user_message "")).action =
        some "full_recommendation"
    ∧ (fallbackPlan (pyGet s.metadata.user_message "")).location = none
    ∧ (fallbackPlan (pyGet s.metadata.user_message "")).original_message =
        pyGet s.metadata.user_message ""
    ∧ (fallbackPlan (pyGet s.metadata.user_message "")).confidence =
        some (1 / 2 : Rat)
    ∧ (∀ s', runSupervisorStage o s = .ok s' → s'.errors = s.errors) := by
  have hplan : supervisor_plan o (pyGet s.metadata.user_message "") =
      .ok (fallbackPlan (pyGet s.metadata.user_message "")) := by
    unfold supervisor_plan
    rw [h1, h2]
  refine ⟨hplan, rfl, rfl, rfl, rfl, ?_⟩
  intro s' h'
  unfold runSupervisorStage at h'
  dsimp only at h'
  rw [hplan] at h'
  cases Except.ok.inj h'
  rfl

/-- Witness for the amended C4 at the concrete C4 scenario. -/
theorem C4_amended_witness :
    supervisor_plan oC4 (some "hello") = .ok (fallbackPlan (some "hello"))
    ∧ (fallbackPlan (some "hello")).confidence = some (1 / 2 : Rat)
    ∧ c4State.errors = (initState "hello" []).errors :=
  ⟨(C4_amended oC4 (initState "hello" []) "sup boom" rfl rfl).1,
   (C4_amended oC4 (initState "hello" []) "sup boom" rfl rfl).2.2.2.2.1,
   (C4_amended oC4 (initState "hello" []) "sup boom" rfl rfl).2.2.2.2.2
     c4State rfl⟩

/-- The weather snapshot used in the C5 scenario. -/
def wdC5 : WeatherData :=
  { location := "Paris"
    temperature := 15
    feels_like := 14
    humidity := 50
    wind_speed := 10
    description := "clear sky"
    conditions := ["Clear"] }

/-- Oracle set for the C5 counterexample: the structured analysis call
raises and the fallback call raises too. -/
def oC5 : Oracles :=
  { supStructured := .error "x"
    supUnstructured := .ok none
    weatherFetch := .ok wdC5
    weatherStructured := .error "e1"
    weatherUnstructured := .error "boom5"
    wardrobeExec := .ok "out"
    search := fun _ _ => []
    designStructured := .error "x"
    designUnstructured := .ok "resp"
    convStructured := .ok "hey"
    convUnstructured := .ok none }

/-- The state entering the weather stage in the C5 scenario. -/
def sC5 : AgentState := { location := some "Paris" }

/-- C5 counterexample: when the structured classification call fails AND
the fallback unstructured call itself raises, `_analyze_weather` does NOT
return an analysis — the failure propagates to its caller (and aborts the
weather stage with the partially-mutated state), refuting the claim that
interpret never propagates a classification failure. -/
theorem C5_counterexample :
    oC5.weatherStructured = .error "e1"
    ∧ analyze_weather oC5 wdC5 = .error "boom5"
    ∧ weatherRun oC5 sC5 =
        .error ("boom5", { sC5 with weather_data := some wdC5 }) := by
  exact ⟨rfl, rfl, rfl⟩

/-- C5 as amended: when the structured classification call fails and the
fallback call returns (unparseable or non-string) output rather than
raising, the interpreter returns the deterministic minimal analysis with
`comfort_level=3`, `temperature_category="mild"`,
`key_factors=["temperature","conditions"]`; only an exception raised by
the fallback call itself propagates. -/
theorem C5_amended (o : Oracles) (wd : WeatherData) (e : String)
    (h1 : o.weatherStructured = .error e)
    (h2 : o.weatherUnstructured = .ok none) :
    analyze_weather o wd = .ok (minimalAnalysis wd)
    ∧ (minimalAnalysis wd).comfort_level = 3
    ∧ (minimalAnalysis wd).temperature_category = "mild"
    ∧ (minimalAnalysis wd).key_factors = ["temperature", "conditions"] := by
  refine ⟨?_, rfl, rfl, rfl⟩
  unfold analyze_weather
  rw [h1, h2]

/-- Oracle set for the C5 witness: fallback output unparseable, call does
not raise. -/
def oC5w : Oracles :=
  { oC5 with weatherUnstructured := .ok none }

/-- Witness for the amended C5 at the concrete C5 snapshot. -/
theorem C5_amended_witness :
    analyze_weather oC5w wdC5 = .ok (minimalAnalysis wdC5)
    ∧ (minimalAnalysis wdC5).comfort_level = 3
    ∧ (minimalAnalysis wdC5).temperature_category = "mild"
    ∧ (minimalAnalysis wdC5).key_factors = ["temperature", "conditions"] :=
  C5_amended oC5w wdC5 "e1" rfl rfl

/-- An item that exists in no candidate list: a fabrication by the
structured generative call. -/
def fabricatedItem : PersonalClothingItem :=
  { name := "Dragon Cloak", category := "outerwear" }

/-- A wardrobe selection with all five candidate lists empty. -/
def emptyWardrobeSel : WardrobeSelection := { selection_reasoning := "r" }

/-- A structured composer output whose top slot holds the fabricated
item as an already-structured value (exactly what Pydantic-validated
structured output produces — never a string). -/
def fabricatedOutfit : OutfitRecommendation :=
  { selected_top := some (.item fabricatedItem)
    outfit_description := "d"
    styling_advice := "s"
    weather_appropriateness := "w"
    formality_match := "f" }

/-- Oracle set for C1: the structured design call returns the fabricated
outfit. -/
def oC1 : Oracles :=
  { supStructured := .error "x"
    supUnstructured := .ok none
    weatherFetch := .ok wdC5
    weatherStructured := .error "x"
    weatherUnstructured := .ok none
    wardrobeExec := .ok "out"
    search := fun _ _ => []
    designStructured := .ok fabricatedOutfit
    designUnstructured := .ok "resp"
    convStructured := .ok "hey"
    convUnstructured := .ok none }

/-- The state entering the design stage in the C1 scenario: weather set,
and an empty candidate selection. -/
def sC1 : AgentState :=
  { weather_data := some wdC5
    wardrobe_selection := some emptyWardrobeSel }

/-- C1: `_validate_and_populate_outfit` resolves only string-valued
slots; a slot that arrives as an already-structured item is passed
through with NO membership check against the candidates.  With an empty
candidate set (lookup dict `[]`), the fabricated "Dragon Cloak"
nevertheless surfaces unchanged in the outfit returned by the design
stage — contradicting the claim (and the method's own docstring). -/
theorem C1_fabricated_item_surfaces :
    create_item_lookup emptyWardrobeSel = []
    ∧ validate_and_populate_outfit fabricatedOutfit emptyWardrobeSel =
        fabricatedOutfit
    ∧ (validate_and_populate_outfit fabricatedOutfit
        emptyWardrobeSel).selected_top = some (SlotVal.item fabricatedItem)
    ∧ designRun oC1 sC1 =
        .ok ({ sC1 with
               final_recommendation := some fabricatedOutfit } : AgentState) := by
  exact ⟨rfl, rfl, rfl, rfl⟩

/-- The resolver `_find_item_by_name` maps the query `"None"` (any casing) to `None`
before any lookup. -/
theorem find_item_by_name_none
    (d : List (String × PersonalClothingItem)) :
    find_item_by_name "None" d = none := by
  unfold find_item_by_name
  exact if_pos (Or.inr (by decide))

/-- C6: whenever the fallback composer response does not split on `"|"`
into exactly 5 fields, all five parts are replaced by `"None"`, so every
single-item slot is `none`, the accessory list is empty, and a
well-formed recommendation is returned. -/
theorem C6_malformed_response_empty_outfit (response : String)
    (w : WardrobeSelection)
    (h : (pySplit (pyStrip response) '|').length ≠ 5) :
    (parse_outfit_response response w).selected_top = none
    ∧ (parse_outfit_response response w).selected_bottom = none
    ∧ (parse_outfit_response response w).selected_footwear = none
    ∧ (parse_outfit_response response w).selected_outerwear = none
    ∧ (parse_outfit_response response w).selected_accessories = [] := by
  unfold parse_outfit_response
  dsimp only
  rw [if_pos h]
  refine ⟨?_, ?_, ?_, ?_, ?_⟩
  · simp [find_item_by_name_none]
  · simp [find_item_by_name_none]
  · simp [find_item_by_name_none]
  · simp [find_item_by_name_none]
  · rw [if_neg (by decide)]

/-- A small wardrobe for the C6 witness (nonempty, so the empty result
is due to the malformed response, not to missing candidates). -/
def wC6 : WardrobeSelection :=
  { available_tops := [{ name := "Blue Shirt", category := "top" }]
    selection_reasoning := "r" }

/-- Witness for C6 on the spec's own example `"A|B"` (2 fields). -/
theorem C6_malformed_response_empty_outfit_witness :
    (pySplit (pyStrip "A|B") '|').length ≠ 5
    ∧ (parse_outfit_response "A|B" wC6).selected_top = none
    ∧ (parse_outfit_response "A|B" wC6).selected_accessories = [] :=
  ⟨by decide,
   (C6_malformed_response_empty_outfit "A|B" wC6 (by decide)).1,
   (C6_malformed_response_empty_outfit "A|B" wC6 (by decide)).2.2.2.2⟩

/-- An item literally named `"None"`: representable in the catalog, and
its lower-cased name is an exact key in the lookup dict. -/
def itemNamedNone : PersonalClothingItem :=
  { name := "None", category := "top" }

/-- A wardrobe whose only candidate is the item named `"None"`. -/
def wC7 : WardrobeSelection :=
  { available_tops := [itemNamedNone], selection_reasoning := "r" }

/-- C7 counterexample: for the query `"None"` there IS an exact
case-insensitive name match among the candidates, yet the resolver
returns `none` — the sentinel guard (`"none"`, `"not needed"`, `""`)
fires before any matching is attempted, so the claim's "first tries an
exact case-insensitive match" does not hold for every free-text name. -/
theorem C7_counterexample :
    (create_item_lookup wC7).find? (fun p => p.1 = pyLower "None") =
      some (pyLower "None", itemNamedNone)
    ∧ find_item_by_name "None" (create_item_lookup wC7) = none := by
  exact ⟨by decide, by decide⟩

/-- C7 as amended: unless the query is empty or lower-cases to one of
the sentinels `"none"`/`"not needed"` (which resolve to `null`
immediately), the resolver returns the exact lower-cased dict match when
one exists; otherwise it returns some candidate matching by substring
containment in either direction, and `none` exactly when no candidate
matches. -/
theorem C7_amended (q : String)
    (d : List (String × PersonalClothingItem))
    (hq : ¬ (q = "" ∨ pyLower q ∈ ["none", "not needed", ""])) :
    (∀ i, (d.find? (fun p => p.1 = pyLower q)).map (·.2) = some i →
      find_item_by_name q d = some i)
    ∧ (d.find? (fun p => p.1 = pyLower q) = none →
        ((find_item_by_name q d = none ↔
           ∀ p ∈ d, ¬ (pyIn (pyLower q) p.1 || pyIn p.1 (pyLower q)))
        ∧ (∀ i, find_item_by_name q d = some i →
            ∃ n, (n, i) ∈ d ∧ (pyIn (pyLower q) n || pyIn n (pyLower q))))) := by
  unfold find_item_by_name
  rw [if_neg hq]
  constructor
  · intro i hi
    rw [hi]
  · intro hnone
    rw [hnone]
    simp only [Option.map_none']
    constructor
    · rw [Option.map_eq_none']
      exact List.find?_eq_none
    · intro i hi
      rw [Option.map_eq_some'] at hi
      obtain ⟨p, hp, hpi⟩ := hi
      obtain ⟨n, j⟩ := p
      cases hpi
      exact ⟨n, List.mem_of_find?_eq_some hp, by simpa using List.find?_some hp⟩

/-- The supervisor stage completes exactly when the plan call returns a
dict, and then applies the supervisor's patch. -/
theorem runSupervisorStage_ok (o : Oracles) (s : AgentState) (d : PlanDict)
    (h : supervisor_plan o (pyGet s.metadata.user_message "") = .ok d) :
    runSupervisorStage o s = .ok (supPatched s d) := by
  unfold runSupervisorStage
  dsimp only
  rw [h]

/-- After a completed supervisor stage, the orchestrator routes by
`d.action`: the pipeline equals the selected flow applied to the patched
state. -/
theorem pipelineResult_routes (o : Oracles) (s0 : AgentState)
    (d : PlanDict)
    (h : supervisor_plan o (pyGet s0.metadata.user_message "") = .ok d) :
    pipelineResult o s0 =
      (if d.action = some "full_recommendation" then
        fullFlow o (supPatched s0 d)
      else if d.action = some "weather_only" then
        weatherOnlyFlow o (supPatched s0 d)
      else if d.action = some "wardrobe_only" then
        wardrobeOnlyFlow o (supPatched s0 d)
      else if d.action = some "conversation_only" then
        conversationOnlyFlow o (supPatched s0 d)
      else fullFlow o (supPatched s0 d)) := by
  unfold pipelineResult
  rw [runSupervisorStage_ok o s0 d h]
  rfl

/-- C8: whenever the router resolves a request to
`action=conversation_only`, the returned state has `weather_data` and
`final_recommendation` still unset: the conversation-only flow runs only
the Response Composer, and no stage writes those fields. -/
theorem C8_conversation_only_unset (o : Oracles) (msg : String)
    (hist : List String) (d : PlanDict)
    (hplan : supervisor_plan o (some msg) = .ok d)
    (ha : d.action = some "conversation_only") :
    (process_request o msg hist).weather_data = none
    ∧ (process_request o msg hist).final_recommendation = none := by
  have hroute := pipelineResult_routes o (initState msg hist) d hplan
  rw [ha] at hroute
  rw [if_neg (by decide), if_neg (by decide), if_neg (by decide),
    if_pos rfl] at hroute
  unfold process_request
  rw [hroute]
  unfold conversationOnlyFlow conversationRun
  cases hr : respondResult o <;> exact ⟨rfl, rfl⟩

/-- The routing plan used in the C8 witness. -/
def planConvOnly : PlanDict :=
  { action := some "conversation_only"
    location := none
    followup_context := none
    original_message := some "Hi!"
    reasoning := some "greeting"
    confidence := none }

/-- Oracle set for the C8 witness. -/
def oC8 : Oracles :=
  { supStructured := .ok planConvOnly
    supUnstructured := .ok none
    weatherFetch := .error "x"
    weatherStructured := .error "x"
    weatherUnstructured := .ok none
    wardrobeExec := .ok "out"
    search := fun _ _ => []
    designStructured := .error "x"
    designUnstructured := .ok "resp"
    convStructured := .ok "Hello there!"
    convUnstructured := .ok none }

/-- Witness for C8 at a concrete conversation-only request. -/
theorem C8_conversation_only_unset_witness :
    (process_request oC8 "Hi!" []).weather_data = none
    ∧ (process_request oC8 "Hi!" []).final_recommendation = none :=
  C8_conversation_only_unset oC8 "Hi!" [] planConvOnly rfl rfl

/-- The filter `filter_by_category` caps its result at `limit` and keeps only items
whose lower-cased category equals the lower-cased requested category —
for any behaviour of the semantic index. -/
theorem filter_by_category_spec
    (search : String → Nat → List PersonalClothingItem)
    (category : String) (limit : Nat) :
    (filter_by_category search category limit).length ≤ limit
    ∧ ∀ i ∈ filter_by_category search category limit,
        pyLower i.category = pyLower category := by
  constructor
  · exact List.length_take_le _ _
  · intro i hi
    have hi' := List.mem_of_mem_take hi
    exact of_decide_eq_true (List.mem_filter.mp hi').2

/-- C9: every `WardrobeSelection` built by
`WardrobeAgent._parse_agent_results` respects the per-category caps
(tops ≤ 4, bottoms ≤ 4, footwear ≤ 3, outerwear ≤ 2, accessories ≤ 3),
and each list holds only items whose category equals the list's category
case-insensitively — for any behaviour of the semantic index. -/
theorem C9_candidate_caps_and_categories
    (search : String → Nat → List PersonalClothingItem) (out : String) :
    (parse_agent_results search out).available_tops.length ≤ 4
    ∧ (parse_agent_results search out).available_bottoms.length ≤ 4
    ∧ (parse_agent_results search out).available_footwear.length ≤ 3
    ∧ (parse_agent_results search out).available_outerwear.length ≤ 2
    ∧ (parse_agent_results search out).available_accessories.length ≤ 3
    ∧ (∀ i ∈ (parse_agent_results search out).available_tops,
        pyLower i.category = "tops")
    ∧ (∀ i ∈ (parse_agent_results search out).available_bottoms,
        pyLower i.category = "bottoms")
    ∧ (∀ i ∈ (parse_agent_results search out).available_footwear,
        pyLower i.category = "footwear")
    ∧ (∀ i ∈ (parse_agent_results search out).available_outerwear,
        pyLower i.category = "outerwear")
    ∧ (∀ i ∈ (parse_agent_results search out).available_accessories,
        pyLower i.category = "accessories") := by
  refine ⟨(filter_by_category_spec search "tops" 4).1,
    (filter_by_category_spec search "bottoms" 4).1,
    (filter_by_category_spec search "footwear" 3).1,
    (filter_by_category_spec search "outerwear" 2).1,
    (filter_by_category_spec search "accessories" 3).1,
    ?_, ?_, ?_, ?_, ?_⟩
  · intro i hi
    have := (filter_by_category_spec search "tops" 4).2 i hi
    rw [this]
    decide
  · intro i hi
    have := (filter_by_category_spec search "bottoms" 4).2 i hi
    rw [this]
    decide
  · intro i hi
    have := (filter_by_category_spec search "footwear" 3).2 i hi
    rw [this]
    decide
  · intro i hi
    have := (filter_by_category_spec search "outerwear" 2).2 i hi
    rw [this]
    decide
  · intro i hi
    have := (filter_by_category_spec search "accessories" 3).2 i hi
    rw [this]
    decide

/-- A concrete semantic-index behaviour for the C9 witness: returns one
capitalised-category top and one boot for every query. -/
def searchC9 : String → Nat → List PersonalClothingItem :=
  fun _ _ =>
    [{ name := "Tee", category := "Tops" },
     { name := "Boot", category := "footwear" }]

/-- Witness for C9 at the concrete index behaviour `searchC9`: the tops
list respects the cap, and its member (matched case-insensitively from
category `"Tops"`) satisfies the category property. -/
theorem C9_candidate_caps_and_categories_witness :
    (parse_agent_results searchC9 "r").available_tops.length ≤ 4
    ∧ pyLower ({ name := "Tee", category := "Tops" } :
        PersonalClothingItem).category = "tops" :=
  ⟨(C9_candidate_caps_and_categories searchC9 "r").1,
   (C9_candidate_caps_and_categories searchC9 "r").2.2.2.2.2.1
     { name := "Tee", category := "Tops" } (by decide)⟩

/-- Without weather data, `WardrobeAgent.run` is the identity on the
state: no search, no candidates written, no error appended. -/
theorem wardrobeRun_no_weather (o : Oracles) (s : AgentState)
    (h : s.weather_data = none) : wardrobeRun o s = .ok s := by
  unfold wardrobeRun
  rw [if_pos h]

/-- C10: the Wardrobe Selector stage returns the state completely
unchanged when `weather_data` is absent; consequently a request the
router resolves to `action=wardrobe_only` (whose flow never runs the
weather stage) always ends with `wardrobe_selection` still unset and
`errors` untouched by the wardrobe stage. -/
theorem C10_wardrobe_skips_without_weather :
    (∀ (o : Oracles) (s : AgentState), s.weather_data = none →
      wardrobeRun o s = .ok s)
    ∧ (∀ (o : Oracles) (msg : String) (hist : List String) (d : PlanDict),
        supervisor_plan o (some msg) = .ok d →
        d.action = some "wardrobe_only" →
        (process_request o msg hist).wardrobe_selection = none
        ∧ (process_request o msg hist).weather_data = none) := by
  refine ⟨fun o s h => wardrobeRun_no_weather o s h, ?_⟩
  intro o msg hist d hplan ha
  have hroute := pipelineResult_routes o (initState msg hist) d hplan
  rw [ha] at hroute
  rw [if_neg (by decide), if_neg (by decide), if_pos rfl] at hroute
  unfold wardrobeOnlyFlow at hroute
  rw [wardrobeRun_no_weather o _ rfl] at hroute
  unfold process_request
  rw [hroute]
  unfold conversationRun
  cases hr : respondResult o <;> exact ⟨rfl, rfl⟩

/-- The routing plan used in the C10 witness. -/
def planWardrobeOnly : PlanDict :=
  { action := some "wardrobe_only"
    location := none
    followup_context := none
    original_message := some "what do I own?"
    reasoning := some "inventory"
    confidence := none }

/-- Oracle set for the C10 witness. -/
def oC10 : Oracles :=
  { supStructured := .ok planWardrobeOnly
    supUnstructured := .ok none
    weatherFetch := .error "x"
    weatherStructured := .error "x"
    weatherUnstructured := .ok none
    wardrobeExec := .ok "out"
    search := fun _ _ => []
    designStructured := .error "x"
    designUnstructured := .ok "resp"
    convStructured := .ok "You own two shirts."
    convUnstructured := .ok none }

/-- Witness for C10 at a concrete wardrobe-only request. -/
theorem C10_wardrobe_skips_without_weather_witness :
    wardrobeRun oC10 (initState "x" []) = .ok (initState "x" [])
    ∧ (process_request oC10 "what do I own?" []).wardrobe_selection = none :=
  ⟨C10_wardrobe_skips_without_weather.1 oC10 (initState "x" []) rfl,
   (C10_wardrobe_skips_without_weather.2 oC10 "what do I own?" []
     planWardrobeOnly rfl rfl).1⟩

/-- The candidate used in the C7 witness. -/
def itemBlueShirt : PersonalClothingItem :=
  { name := "Blue Shirt", category := "top" }

/-- A wardrobe whose only candidate is the blue shirt. -/
def wC7w : WardrobeSelection :=
  { available_tops := [itemBlueShirt], selection_reasoning := "r" }

/-- Witness for the amended C7: the upper-cased query `"BLUE SHIRT"` is
no sentinel and matches the candidate exactly after lower-casing. -/
theorem C7_amended_witness :
    find_item_by_name "BLUE SHIRT" (create_item_lookup wC7w) =
      some itemBlueShirt :=
  (C7_amended "BLUE SHIRT" (create_item_lookup wC7w) (by decide)).1
    itemBlueShirt (by decide)
